import Mathlib

/-!
Verification of the web-pixel billing batch.

Shallow embedding of the billing pipeline of this repository:
the usage-amount arithmetic (BillingService.calculateBillingAmount),
billing-record generation (BillingService.generateBillingRecords),
the charge dispatcher with retry (ShopifyBillingService.chargeShops and
ShopifyBillingService.chargeShopWithRetry), the append-only ledger insert
(BigQueryService.insertBillingRecords), the run orchestration
(BillingService.processDailyBilling) and the HTTP trigger (processBilling
in index.ts).  External effects (BigQuery reads and inserts, the Shopify
GraphQL endpoint) are modelled by an explicit environment giving the
outcome of each external call; money amounts are exact rationals.
-/

namespace WebPixelBilling

/-- Semantics of the JavaScript builtin Math.round on an exact rational:
round half toward positive infinity. -/
def mathRound (q : ℚ) : ℤ := ⌊q + 1/2⌋

/-- Configuration built in the BillingService constructor. -/
structure BillingConfig where
  ratePerMillion : ℚ
  timezone : String
  billingTime : String

/-- The concrete configuration of the BillingService constructor:
10 dollars per million page views. -/
def defaultBillingConfig : BillingConfig :=
  { ratePerMillion := 10, timezone := "Asia/Tokyo", billingTime := "01:00" }

/-- BillingService.calculateBillingAmount: dollar amount for a page-view
count, Math.round(millionViews * ratePerMillion * 100) / 100. -/
def calculateBillingAmount (cfg : BillingConfig) (pageViews : ℕ) : ℚ :=
  let millionViews : ℚ := (pageViews : ℚ) / 1000000
  ((mathRound (millionViews * cfg.ratePerMillion * 100) : ℤ) : ℚ) / 100

/-- The rounding function named by the spec: round a value to two decimal
places, half up. -/
def specRound2 (x : ℚ) : ℚ := ((⌊x * 100 + 1/2⌋ : ℤ) : ℚ) / 100

/-- Statuses of a UsageChargeResult (shopifyBilling.ts). -/
inductive ChargeStatus
  | success
  | failed
  | skipped
deriving Repr, DecidableEq

/-- UsageChargeResult from shopifyBilling.ts. -/
structure UsageChargeResult where
  shop : String
  chargeId : Option String := none
  status : ChargeStatus
  error : Option String := none
  amount : Option ℚ := none
deriving Repr, DecidableEq

/-- A Shopify session row as used by the dispatcher (fields session_id,
shop, accessToken of the ShopifySession interface; timestamps omitted). -/
structure ShopifySession where
  session_id : String
  shop : String
  accessToken : String
deriving Repr, DecidableEq

/-- Behaviour of the Shopify endpoint during one attempt of
chargeShopWithRetry.  An attempt first issues the getSubscriptionLineItemId
request; when that yields a usage line item it issues the createUsageCharge
request.  Each constructor records how the attempt ends: the first request
throws, the first request finds no usage-pricing line item, the second
request throws, or the charge is created. -/
inductive AttemptSpec
  | lineItemThrows (msg : String)
  | noUsageSubscription
  | createThrows (msg : String)
  | createSucceeds (chargeId : String)
deriving Repr, DecidableEq

/-- Instrumented outcome of chargeShopWithRetry for one tenant: the
returned result, the total number of HTTP requests made to the charge
provider, the number of attempts, and the backoff delays (in ms) slept
between consecutive attempts, in order. -/
structure ChargeRun where
  result : UsageChargeResult
  requests : ℕ
  attempts : ℕ
  delays : List ℕ
deriving Repr, DecidableEq

/-- Configuration read in the ShopifyBillingService constructor:
BATCH_SIZE (default 5), MAX_RETRIES (default 3) and the fixed 1000 ms base
retry delay. -/
structure ShopifyServiceConfig where
  batchSize : ℕ
  maxRetries : ℕ
  retryDelay : ℕ

/-- The defaults of the ShopifyBillingService constructor. -/
def defaultShopifyServiceConfig : ShopifyServiceConfig :=
  { batchSize := 5, maxRetries := 3, retryDelay := 1000 }

/-- ShopifyBillingService.chargeShopWithRetry.  The provider argument gives
the behaviour of the Shopify endpoint at each attempt number.  Source
behaviour: a null line item fails immediately with the fixed message; a
created charge returns success; any thrown error is retried while
attempt < maxRetries after sleeping retryDelay * 2 ^ (attempt - 1) ms, and
once attempts are exhausted the last error message is returned as a failed
result. -/
def chargeShopWithRetry (cfg : ShopifyServiceConfig) (provider : ℕ → AttemptSpec)
    (shop : String) (amount : ℚ) (attempt : ℕ) : ChargeRun :=
  match provider attempt with
  | .noUsageSubscription =>
      { result := { shop := shop, status := .failed,
                    error := some "No active usage-based subscription found",
                    amount := some amount },
        requests := 1, attempts := 1, delays := [] }
  | .createSucceeds chargeId =>
      { result := { shop := shop, chargeId := some chargeId, status := .success,
                    amount := some amount },
        requests := 2, attempts := 1, delays := [] }
  | .lineItemThrows msg =>
      if h : attempt < cfg.maxRetries then
        let rest := chargeShopWithRetry cfg provider shop amount (attempt + 1)
        { result := rest.result, requests := 1 + rest.requests,
          attempts := 1 + rest.attempts,
          delays := cfg.retryDelay * 2 ^ (attempt - 1) :: rest.delays }
      else
        { result := { shop := shop, status := .failed, error := some msg,
                      amount := some amount },
          requests := 1, attempts := 1, delays := [] }
  | .createThrows msg =>
      if h : attempt < cfg.maxRetries then
        let rest := chargeShopWithRetry cfg provider shop amount (attempt + 1)
        { result := rest.result, requests := 2 + rest.requests,
          attempts := 1 + rest.attempts,
          delays := cfg.retryDelay * 2 ^ (attempt - 1) :: rest.delays }
      else
        { result := { shop := shop, status := .failed, error := some msg,
                      amount := some amount },
          requests := 2, attempts := 1, delays := [] }
termination_by cfg.maxRetries - attempt
decreasing_by all_goals omega

/-- The per-session task that ShopifyBillingService.chargeShops submits to
the concurrency limiter: look the amount up in the charges map (missing
keys default to 0), classify the session skipped when the amount is not
positive, otherwise run chargeShopWithRetry from attempt 1. -/
def dispatchOne (cfg : ShopifyServiceConfig) (provider : String → ℕ → AttemptSpec)
    (charges : List (String × ℚ)) (session : ShopifySession) : ChargeRun :=
  let amount := (charges.lookup session.shop).getD 0
  if amount ≤ 0 then
    { result := { shop := session.shop, status := .skipped, amount := some 0 },
      requests := 0, attempts := 0, delays := [] }
  else
    chargeShopWithRetry cfg (provider session.shop) session.shop amount 1

/-- ShopifyBillingService.chargeShops: one instrumented ChargeRun per
session, in input order. -/
def chargeShops (cfg : ShopifyServiceConfig) (provider : String → ℕ → AttemptSpec)
    (sessions : List ShopifySession) (charges : List (String × ℚ)) : List ChargeRun :=
  sessions.map (dispatchOne cfg provider charges)

/-- State of the p-limit concurrency limiter that chargeShops routes every
per-session task through: the number of currently running tasks and the
number of queued tasks. -/
structure LimitState where
  activeCount : ℕ
  queued : ℕ
deriving Repr, DecidableEq

/-- One event of the concurrency limiter with bound K.  Modelled from the
spec (a worker pool bounded by a counting semaphore) because the p-limit
package is an external dependency, not part of this repository: submitting
a task runs it at once when activeCount is below the bound and queues it
otherwise; a finishing task decrements activeCount and, when the queue is
non-empty, immediately starts the next queued task in its place. -/
inductive LimitStep (K : ℕ) : LimitState → LimitState → Prop
  | submitRun (s : LimitState) (h : s.activeCount < K) :
      LimitStep K s ⟨s.activeCount + 1, s.queued⟩
  | submitQueue (s : LimitState) (h : K ≤ s.activeCount) :
      LimitStep K s ⟨s.activeCount, s.queued + 1⟩
  | finishIdle (s : LimitState) (h : 0 < s.activeCount) (hq : s.queued = 0) :
      LimitStep K s ⟨s.activeCount - 1, 0⟩
  | finishNext (s : LimitState) (h : 0 < s.activeCount) (hq : 0 < s.queued) :
      LimitStep K s ⟨s.activeCount, s.queued - 1⟩

/-- Limiter states reachable during a chargeShops call, starting idle. -/
inductive LimitReachable (K : ℕ) : LimitState → Prop
  | init : LimitReachable K ⟨0, 0⟩
  | step {s t : LimitState} : LimitReachable K s → LimitStep K s t → LimitReachable K t

/-- A page-view aggregation row: shop and its page_viewed event count. -/
structure PageViewEvent where
  shop : String
  event_count : ℕ
deriving Repr, DecidableEq

/-- Values of the shopify_billing_status ledger column. -/
inductive BillingStatus
  | pending
  | success
  | failed
deriving Repr, DecidableEq

/-- BillingRecord ledger row (types/billing.ts).  The
shopify_processed_at timestamp is modelled as a flag recording whether it
was set. -/
structure BillingRecord where
  shop : String
  billing_date : String
  page_views : ℕ
  billing_amount : ℚ
  rate_per_million : ℚ
  shopify_charge_id : Option String := none
  shopify_billing_status : Option BillingStatus := none
  shopify_error_message : Option String := none
  shopify_processed_at : Bool := false
deriving Repr, DecidableEq

/-- Values of the shopifyStatus field of a ShopBillingResult. -/
inductive ShopResultStatus
  | pending
  | success
  | failed
  | skipped
deriving Repr, DecidableEq

/-- The cast from a charge status to a per-shop report status used when
processDailyBilling copies charge results into shop results. -/
def ChargeStatus.toShopResultStatus : ChargeStatus → ShopResultStatus
  | .success => .success
  | .failed => .failed
  | .skipped => .skipped

/-- ShopBillingResult entries of the run report, with the shape constructed
in BillingService.processDailyBilling (the interface itself lives in a
types module not present among the sources). -/
structure ShopBillingResult where
  shop : String
  pageViews : ℕ
  billingAmount : ℚ
  bigQuerySaved : Bool
  bigQueryError : Option String := none
  shopifyStatus : ShopResultStatus
  shopifyChargeId : Option String := none
  shopifyError : Option String := none
deriving Repr, DecidableEq

/-- BillingService.generateBillingRecords: one record per session, with the
page-view count defaulting to 0 for shops without a page-view row. -/
def generateBillingRecords (cfg : BillingConfig) (sessions : List ShopifySession)
    (pageViews : List PageViewEvent) (billingDate : String) : List BillingRecord :=
  sessions.map (fun session =>
    let viewCount :=
      ((pageViews.map (fun pv => (pv.shop, pv.event_count))).lookup session.shop).getD 0
    { shop := session.shop, billing_date := billingDate,
      page_views := viewCount,
      billing_amount := calculateBillingAmount cfg viewCount,
      rate_per_million := cfg.ratePerMillion })

/-- BigQueryService.insertBillingRecords: appends one row per record to the
usage_records table; an empty batch returns without touching the table.
Schema management and the created_at column are omitted. -/
def insertBillingRecords (ledger : List BillingRecord)
    (records : List BillingRecord) : List BillingRecord :=
  if records.length = 0 then ledger else ledger ++ records

/-- The pending-stage batch of processDailyBilling: every generated record
marked with shopify_billing_status pending. -/
def pendingRecords (cfg : BillingConfig) (sessions : List ShopifySession)
    (pageViews : List PageViewEvent) (billingDate : String) : List BillingRecord :=
  (generateBillingRecords cfg sessions pageViews billingDate).map
    (fun record => { record with shopify_billing_status := some BillingStatus.pending })

/-- The reconciliation-stage batch of processDailyBilling: a new record per
original record carrying the charge result joined by shop (skipped charges
persist as pending; the processed-at timestamp is set only on success). -/
def updatedBillingRecords (billingRecords : List BillingRecord)
    (chargeResults : List UsageChargeResult) : List BillingRecord :=
  billingRecords.map (fun record =>
    match chargeResults.find? (fun r => r.shop == record.shop) with
    | some chargeResult =>
        { record with
          shopify_charge_id := chargeResult.chargeId,
          shopify_billing_status := some
            (if chargeResult.status = .skipped then BillingStatus.pending
             else if chargeResult.status = .success then BillingStatus.success
             else BillingStatus.failed),
          shopify_error_message := chargeResult.error,
          shopify_processed_at := chargeResult.status = .success }
    | none => record)

/-- Outcomes of the external calls one processDailyBilling run makes: the
two BigQuery reads, the two BigQuery inserts (an error value models the
call throwing), and the Shopify endpoint behaviour per shop and attempt. -/
structure RunEnv where
  sessions : Except String (List ShopifySession)
  pageViews : Except String (List PageViewEvent)
  pendingInsert : Except String Unit
  reconInsert : Except String Unit
  provider : String → ℕ → AttemptSpec

/-- The structured run report returned by BillingService.processDailyBilling. -/
structure RunReport where
  success : Bool
  targetDate : String
  skipped : Bool
  skipReason : Option String := none
  activeSessions : ℕ
  shopsWithPageViews : ℕ
  billingRecordsGenerated : ℕ
  totalPageViews : ℕ
  totalAmount : ℚ
  chargeResults : Option (List UsageChargeResult) := none
  shopResults : List ShopBillingResult := []
  errorDetails : Option String := none
deriving Repr, DecidableEq

/-- Instrumentation of one run: how many times chargeShops was invoked and
the total number of HTTP requests made to the charge provider. -/
structure RunTrace where
  dispatchCalls : ℕ
  providerRequests : ℕ
deriving Repr, DecidableEq

/-- Context rebuilt inside the catch block of processDailyBilling: sessions
and page views are fetched again and mapped to failed ShopBillingResult
entries; when the refetch itself throws the context stays empty. -/
def catchContextResults (cfg : BillingConfig) (env : RunEnv)
    (targetDate errMsg : String) : List ShopBillingResult :=
  match env.sessions, env.pageViews with
  | .ok sessions, .ok pageViews =>
      (generateBillingRecords cfg sessions pageViews targetDate).map (fun record =>
        { shop := record.shop, pageViews := record.page_views,
          billingAmount := record.billing_amount, bigQuerySaved := false,
          bigQueryError := some errMsg, shopifyStatus := .skipped,
          shopifyError := some "Process failed before Shopify billing" })
  | _, _ => []

/-- The report built by the catch block of processDailyBilling: the run is
returned (not rethrown) with success false and the error message in
skipReason and errorDetails. -/
def failedRunReport (cfg : BillingConfig) (env : RunEnv)
    (targetDate errMsg : String) : RunReport :=
  { success := false, targetDate := targetDate, skipped := false,
    skipReason := some ("Process failed: " ++ errMsg),
    activeSessions := 0, shopsWithPageViews := 0, billingRecordsGenerated := 0,
    totalPageViews := 0, totalAmount := 0,
    shopResults := catchContextResults cfg env targetDate errMsg,
    errorDetails := some errMsg }

/-- BillingService.processDailyBilling for one target date over an explicit
environment, threading the ledger table contents and an instrumentation
trace.  Mirrors the source control flow: an empty session list
short-circuits to a skipped report; a pending-insert error is rethrown to
the outer catch before any charge; reconciliation results are appended as
new rows instead of updates; any thrown error produces the catch-block
report. -/
def processDailyBilling (cfg : BillingConfig) (scfg : ShopifyServiceConfig)
    (env : RunEnv) (targetDate : String) (ledger : List BillingRecord) :
    RunReport × List BillingRecord × RunTrace :=
  match env.sessions with
  | .error e => (failedRunReport cfg env targetDate e, ledger, ⟨0, 0⟩)
  | .ok sessions =>
    if sessions.length = 0 then
      ({ success := true, targetDate := targetDate, skipped := true,
         skipReason := some "No active sessions found",
         activeSessions := 0, shopsWithPageViews := 0,
         billingRecordsGenerated := 0, totalPageViews := 0, totalAmount := 0 },
       ledger, ⟨0, 0⟩)
    else
      match env.pageViews with
      | .error e => (failedRunReport cfg env targetDate e, ledger, ⟨0, 0⟩)
      | .ok pageViews =>
        let billingRecords := generateBillingRecords cfg sessions pageViews targetDate
        let totalAmount := (billingRecords.map (fun r => r.billing_amount)).sum
        let totalPageViews := (billingRecords.map (fun r => r.page_views)).sum
        if 0 < billingRecords.length then
          let recordsWithStatus := pendingRecords cfg sessions pageViews targetDate
          match env.pendingInsert with
          | .error e => (failedRunReport cfg env targetDate e, ledger, ⟨0, 0⟩)
          | .ok _ =>
            let ledger1 := insertBillingRecords ledger recordsWithStatus
            let shopResults : List ShopBillingResult := billingRecords.map (fun record =>
              { shop := record.shop, pageViews := record.page_views,
                billingAmount := record.billing_amount, bigQuerySaved := true,
                shopifyStatus := .pending })
            let chargeMap := billingRecords.map (fun record => (record.shop, record.billing_amount))
            let runs := chargeShops scfg env.provider sessions chargeMap
            let chargeResults := runs.map (fun run => run.result)
            let requests := (runs.map (fun run => run.requests)).sum
            let updatedRecords := updatedBillingRecords billingRecords chargeResults
            let shopResults2 := shopResults.map (fun shopResult =>
              match chargeResults.find? (fun r => r.shop == shopResult.shop) with
              | some chargeResult =>
                  { shopResult with
                    shopifyStatus := chargeResult.status.toShopResultStatus,
                    shopifyChargeId := chargeResult.chargeId,
                    shopifyError := chargeResult.error }
              | none => shopResult)
            match env.reconInsert with
            | .error e => (failedRunReport cfg env targetDate e, ledger1, ⟨1, requests⟩)
            | .ok _ =>
              let ledger2 := insertBillingRecords ledger1 updatedRecords
              ({ success := true, targetDate := targetDate, skipped := false,
                 activeSessions := sessions.length,
                 shopsWithPageViews := pageViews.length,
                 billingRecordsGenerated := billingRecords.length,
                 totalPageViews := totalPageViews, totalAmount := totalAmount,
                 chargeResults := some chargeResults,
                 shopResults := shopResults2 }, ledger2, ⟨1, requests⟩)
        else
          ({ success := true, targetDate := targetDate, skipped := false,
             activeSessions := sessions.length,
             shopsWithPageViews := pageViews.length,
             billingRecordsGenerated := 0, totalPageViews := 0, totalAmount := 0,
             chargeResults := some [], shopResults := [] }, ledger, ⟨0, 0⟩)

/-- The envelope the processBilling HTTP handler responds with. -/
structure HttpResult where
  status : ℕ
  success : Bool
  message : String
  billingDetails : RunReport
deriving Repr, DecidableEq

/-- The processBilling HTTP entry point (index.ts): it awaits
processDailyBilling — which catches its own errors and returns a report
instead of throwing — sends the Slack notification (whose sendBatchResult
swallows its own errors, slack.ts), and responds 200 with the report in
the body.  The 500 branch of the handler runs only when an exception
escapes the above, which none of the modelled calls can raise. -/
def processBilling (cfg : BillingConfig) (scfg : ShopifyServiceConfig)
    (env : RunEnv) (targetDate : String) (ledger : List BillingRecord) : HttpResult :=
  let billingResult := (processDailyBilling cfg scfg env targetDate ledger).1
  { status := 200, success := true,
    message := if billingResult.skipped then
        "Billing process skipped: " ++ billingResult.skipReason.getD ""
      else "Billing process completed successfully",
    billingDetails := billingResult }

/-- A concrete session used by witnesses and counterexamples. -/
def sessionA : ShopifySession :=
  { session_id := "shop-a.myshopify.com", shop := "shop-a.myshopify.com",
    accessToken := "token-a" }

/-- A concrete pending ledger row used by witnesses. -/
def recordA : BillingRecord :=
  { shop := "shop-a.myshopify.com", billing_date := "2024-01-01",
    page_views := 2000000, billing_amount := 20, rate_per_million := 10 }

/-- Environment in which everything succeeds: one session with two million
page views whose charge is created at the first attempt. -/
def envAllOk : RunEnv :=
  { sessions := .ok [sessionA],
    pageViews := .ok [{ shop := "shop-a.myshopify.com", event_count := 2000000 }],
    pendingInsert := .ok (), reconInsert := .ok (),
    provider := fun _ _ => .createSucceeds "gid1" }

/-- Environment in which the pending-stage ledger insert throws. -/
def envPendingFail : RunEnv :=
  { sessions := .ok [sessionA],
    pageViews := .ok [{ shop := "shop-a.myshopify.com", event_count := 2000000 }],
    pendingInsert := .error "BigQuery insert error", reconInsert := .ok (),
    provider := fun _ _ => .createSucceeds "gid1" }

/-- Environment in which only the reconciliation-stage insert throws. -/
def envReconFail : RunEnv :=
  { sessions := .ok [sessionA],
    pageViews := .ok [{ shop := "shop-a.myshopify.com", event_count := 2000000 }],
    pendingInsert := .ok (), reconInsert := .error "BigQuery insert error",
    provider := fun _ _ => .createSucceeds "gid1" }

/-- Environment in which the session read throws, so the run fails before
any write. -/
def envReadFail : RunEnv :=
  { sessions := .error "BigQuery unreachable",
    pageViews := .error "BigQuery unreachable",
    pendingInsert := .ok (), reconInsert := .ok (),
    provider := fun _ _ => .noUsageSubscription }

/-! Helper lemmas about the retry loop of the dispatcher. -/

/-- Attempt-count bound for the retry loop: from a given attempt number the
loop makes at most maxRetries - attempt + 1 further attempts, whatever the
endpoint does. -/
theorem chargeShopWithRetry_attempts_aux (cfg : ShopifyServiceConfig)
    (provider : ℕ → AttemptSpec) (shop : String) (amount : ℚ) :
    ∀ n attempt, cfg.maxRetries - attempt ≤ n →
      (chargeShopWithRetry cfg provider shop amount attempt).attempts ≤ n + 1 := by
  intro n
  induction n with
  | zero =>
      intro attempt h
      have hnlt : ¬ attempt < cfg.maxRetries := by omega
      rw [chargeShopWithRetry]
      rcases hp : provider attempt with msg | _ | msg | cid <;>
        simp [hp, if_neg hnlt]
  | succ k ih =>
      intro attempt h
      rw [chargeShopWithRetry]
      rcases hp : provider attempt with msg | _ | msg | cid
      · simp only [hp]
        by_cases hlt : attempt < cfg.maxRetries
        · rw [dif_pos hlt]
          have hrec := ih (attempt + 1) (by omega)
          simp
          omega
        · rw [dif_neg hlt]
          simp
      · simp [hp]
      · simp only [hp]
        by_cases hlt : attempt < cfg.maxRetries
        · rw [dif_pos hlt]
          have hrec := ih (attempt + 1) (by omega)
          simp
          omega
        · rw [dif_neg hlt]
          simp
      · simp [hp]

/-- Exact shape of the retry loop when the first request of every attempt
throws: the loop walks from the given attempt up to maxRetries, one request
per attempt, sleeping retryDelay * 2 ^ (attempt - 1) between consecutive
attempts, and fails with the message of the last attempt. -/
theorem chargeShopWithRetry_allThrow_aux (cfg : ShopifyServiceConfig)
    (provider : ℕ → AttemptSpec) (msgs : ℕ → String)
    (hprov : ∀ i, provider i = .lineItemThrows (msgs i))
    (shop : String) (amount : ℚ) :
    ∀ n attempt, 1 ≤ attempt → attempt ≤ cfg.maxRetries → cfg.maxRetries - attempt = n →
      chargeShopWithRetry cfg provider shop amount attempt =
        { result := { shop := shop, status := .failed,
                      error := some (msgs cfg.maxRetries), amount := some amount },
          requests := n + 1, attempts := n + 1,
          delays := (List.range n).map (fun i => cfg.retryDelay * 2 ^ (attempt - 1 + i)) } := by
  intro n
  induction n with
  | zero =>
      intro attempt h1 h2 hn
      have heq : attempt = cfg.maxRetries := by omega
      have hnlt : ¬ attempt < cfg.maxRetries := by omega
      rw [chargeShopWithRetry, hprov attempt]
      simp [dif_neg hnlt, heq]
  | succ k ih =>
      intro attempt h1 h2 hn
      have hlt : attempt < cfg.maxRetries := by omega
      rw [chargeShopWithRetry, hprov attempt]
      simp only [dif_pos hlt]
      rw [ih (attempt + 1) (by omega) (by omega) (by omega)]
      have hrange : List.range (k + 1) = 0 :: List.map Nat.succ (List.range k) :=
        List.range_succ_eq_map k
      rw [hrange, List.map_cons, List.map_map]
      have hfun : ((fun i => cfg.retryDelay * 2 ^ (attempt - 1 + i)) ∘ Nat.succ)
          = (fun i => cfg.retryDelay * 2 ^ (attempt + 1 - 1 + i)) := by
        funext i
        have hexp : attempt - 1 + Nat.succ i = attempt + 1 - 1 + i := by omega
        simp [Function.comp, hexp]
      rw [hfun]
      simp
      omega

/-- C3: for all non-negative integer page-view counts u and non-negative
rate r, the computed billing amount equals round(u / 1000000 * r, 2) and is
non-negative; amount(1000000, 10) = 10, amount(0, 10) = 0,
amount(500000, 10) = 5 and amount(1, 10) = 0 (rounds down to the cent). -/
theorem calculateBillingAmount_spec (cfg : BillingConfig) (u : ℕ)
    (hr : 0 ≤ cfg.ratePerMillion) :
    calculateBillingAmount cfg u = specRound2 ((u : ℚ) / 1000000 * cfg.ratePerMillion)
      ∧ 0 ≤ calculateBillingAmount cfg u
      ∧ calculateBillingAmount defaultBillingConfig 1000000 = 10
      ∧ calculateBillingAmount defaultBillingConfig 0 = 0
      ∧ calculateBillingAmount defaultBillingConfig 500000 = 5
      ∧ calculateBillingAmount defaultBillingConfig 1 = 0 := by
  refine ⟨?_, ?_, ?_, ?_, ?_, ?_⟩
  · unfold calculateBillingAmount specRound2 mathRound
    ring_nf
  · unfold calculateBillingAmount mathRound
    have hm : (0 : ℚ) ≤ (u : ℚ) / 1000000 * cfg.ratePerMillion * 100 := by positivity
    have hfl : (0 : ℤ) ≤ ⌊(u : ℚ) / 1000000 * cfg.ratePerMillion * 100 + 1/2⌋ :=
      Int.floor_nonneg.mpr (by linarith)
    have hq : (0 : ℚ) ≤ ((⌊(u : ℚ) / 1000000 * cfg.ratePerMillion * 100 + 1/2⌋ : ℤ) : ℚ) := by
      exact_mod_cast hfl
    simpa using by positivity
  · norm_num [calculateBillingAmount, mathRound, defaultBillingConfig]
  · norm_num [calculateBillingAmount, mathRound, defaultBillingConfig]
  · norm_num [calculateBillingAmount, mathRound, defaultBillingConfig]
  · norm_num [calculateBillingAmount, mathRound, defaultBillingConfig]

/-- Witness for C3 at u = 7 with the configured rate 10. -/
theorem calculateBillingAmount_spec_witness :
    (0 : ℚ) ≤ defaultBillingConfig.ratePerMillion
      ∧ (calculateBillingAmount defaultBillingConfig 7
            = specRound2 ((7 : ℚ) / 1000000 * defaultBillingConfig.ratePerMillion)
          ∧ 0 ≤ calculateBillingAmount defaultBillingConfig 7
          ∧ calculateBillingAmount defaultBillingConfig 1000000 = 10
          ∧ calculateBillingAmount defaultBillingConfig 0 = 0
          ∧ calculateBillingAmount defaultBillingConfig 500000 = 5
          ∧ calculateBillingAmount defaultBillingConfig 1 = 0) :=
  ⟨by norm_num [defaultBillingConfig],
   calculateBillingAmount_spec defaultBillingConfig 7 (by norm_num [defaultBillingConfig])⟩

/-- C4: a session whose computed amount from the charges map is zero (or,
more generally, not positive) is classified skipped immediately by
chargeShops and its task performs no HTTP request to the charge provider. -/
theorem chargeShops_zero_amount_skipped (cfg : ShopifyServiceConfig)
    (provider : String → ℕ → AttemptSpec) (sessions : List ShopifySession)
    (charges : List (String × ℚ)) (s : ShopifySession)
    (hs : s ∈ sessions) (hamt : (charges.lookup s.shop).getD 0 ≤ 0) :
    dispatchOne cfg provider charges s ∈ chargeShops cfg provider sessions charges
      ∧ (dispatchOne cfg provider charges s).result.status = .skipped
      ∧ (dispatchOne cfg provider charges s).requests = 0 := by
  refine ⟨List.mem_map_of_mem _ hs, ?_, ?_⟩ <;> simp [dispatchOne, hamt]

/-- Witness for C4: one session with an explicit zero amount in the map. -/
theorem chargeShops_zero_amount_skipped_witness :
    (sessionA ∈ [sessionA]
        ∧ (([("shop-a.myshopify.com", (0 : ℚ))].lookup sessionA.shop).getD 0 ≤ 0))
      ∧ (dispatchOne defaultShopifyServiceConfig (fun _ _ => .createSucceeds "gid1")
            [("shop-a.myshopify.com", (0 : ℚ))] sessionA
          ∈ chargeShops defaultShopifyServiceConfig (fun _ _ => .createSucceeds "gid1")
              [sessionA] [("shop-a.myshopify.com", (0 : ℚ))]
        ∧ (dispatchOne defaultShopifyServiceConfig (fun _ _ => .createSucceeds "gid1")
            [("shop-a.myshopify.com", (0 : ℚ))] sessionA).result.status = .skipped
        ∧ (dispatchOne defaultShopifyServiceConfig (fun _ _ => .createSucceeds "gid1")
            [("shop-a.myshopify.com", (0 : ℚ))] sessionA).requests = 0) :=
  ⟨⟨by simp, by decide⟩,
   chargeShops_zero_amount_skipped defaultShopifyServiceConfig
     (fun _ _ => .createSucceeds "gid1") [sessionA]
     [("shop-a.myshopify.com", (0 : ℚ))] sessionA (by simp) (by decide)⟩

/-- C10: a session whose shop key has no entry in the charges map defaults
to amount 0: chargeShops classifies it skipped (amount 0) with no provider
request — never failed and never dispatched. -/
theorem chargeShops_missing_shop_skipped (cfg : ShopifyServiceConfig)
    (provider : String → ℕ → AttemptSpec) (sessions : List ShopifySession)
    (charges : List (String × ℚ)) (s : ShopifySession)
    (hs : s ∈ sessions) (hnone : charges.lookup s.shop = none) :
    dispatchOne cfg provider charges s ∈ chargeShops cfg provider sessions charges
      ∧ (dispatchOne cfg provider charges s).result.status = .skipped
      ∧ (dispatchOne cfg provider charges s).result.amount = some 0
      ∧ (dispatchOne cfg provider charges s).requests = 0
      ∧ ¬ (dispatchOne cfg provider charges s).result.status = .failed := by
  refine ⟨List.mem_map_of_mem _ hs, ?_, ?_, ?_, ?_⟩ <;> simp [dispatchOne, hnone]

/-- Witness for C10: one session whose shop is absent from the map. -/
theorem chargeShops_missing_shop_skipped_witness :
    (sessionA ∈ [sessionA]
        ∧ ([("other.myshopify.com", (5 : ℚ))].lookup sessionA.shop = none))
      ∧ (dispatchOne defaultShopifyServiceConfig (fun _ _ => .createSucceeds "gid1")
            [("other.myshopify.com", (5 : ℚ))] sessionA
          ∈ chargeShops defaultShopifyServiceConfig (fun _ _ => .createSucceeds "gid1")
              [sessionA] [("other.myshopify.com", (5 : ℚ))]
        ∧ (dispatchOne defaultShopifyServiceConfig (fun _ _ => .createSucceeds "gid1")
            [("other.myshopify.com", (5 : ℚ))] sessionA).result.status = .skipped
        ∧ (dispatchOne defaultShopifyServiceConfig (fun _ _ => .createSucceeds "gid1")
            [("other.myshopify.com", (5 : ℚ))] sessionA).result.amount = some 0
        ∧ (dispatchOne defaultShopifyServiceConfig (fun _ _ => .createSucceeds "gid1")
            [("other.myshopify.com", (5 : ℚ))] sessionA).requests = 0
        ∧ ¬ (dispatchOne defaultShopifyServiceConfig (fun _ _ => .createSucceeds "gid1")
            [("other.myshopify.com", (5 : ℚ))] sessionA).result.status = .failed) :=
  ⟨⟨by simp, by decide⟩,
   chargeShops_missing_shop_skipped defaultShopifyServiceConfig
     (fun _ _ => .createSucceeds "gid1") [sessionA]
     [("other.myshopify.com", (5 : ℚ))] sessionA (by simp) (by decide)⟩

/-- C9: every reachable state of the concurrency limiter has at most K
running tasks, for any bound K ≥ 1 and any number of submitted tasks. -/
theorem pLimit_concurrency_bound (K : ℕ) (hK : 1 ≤ K) (s : LimitState)
    (hs : LimitReachable K s) : s.activeCount ≤ K := by
  induction hs with
  | init => exact Nat.zero_le K
  | step hr hstep ih =>
      cases hstep with
      | submitRun h => exact h
      | submitQueue h => exact ih
      | finishIdle h hq => exact Nat.le_trans (Nat.sub_le _ _) ih
      | finishNext h hq => exact ih

/-- Witness for C9: with K = 1, the state after one submission is reachable
and within the bound. -/
theorem pLimit_concurrency_bound_witness :
    (1 ≤ 1 ∧ LimitReachable 1 ⟨1, 0⟩)
      ∧ (⟨1, 0⟩ : LimitState).activeCount ≤ 1 :=
  have hreach : LimitReachable 1 ⟨1, 0⟩ :=
    LimitReachable.step LimitReachable.init (LimitStep.submitRun ⟨0, 0⟩ (by decide))
  ⟨⟨le_rfl, hreach⟩, pLimit_concurrency_bound 1 le_rfl ⟨1, 0⟩ hreach⟩

/-- C2 counterexample: with the default configuration (maxRetries = 3) and
an endpoint that always fails its first request with the authentication
error Invalid access token, the dispatcher makes three provider requests
over three attempts for the tenant — not exactly one call, and not an
immediate failure without retry. -/
theorem nonTransient_single_call_counterexample :
    (chargeShopWithRetry defaultShopifyServiceConfig
        (fun _ => .lineItemThrows "Invalid access token")
        "shop-a.myshopify.com" 5 1).requests = 3
      ∧ (chargeShopWithRetry defaultShopifyServiceConfig
          (fun _ => .lineItemThrows "Invalid access token")
          "shop-a.myshopify.com" 5 1).attempts = 3
      ∧ ¬ (chargeShopWithRetry defaultShopifyServiceConfig
          (fun _ => .lineItemThrows "Invalid access token")
          "shop-a.myshopify.com" 5 1).requests = 1 := by
  refine ⟨?_, ?_, ?_⟩ <;> simp [chargeShopWithRetry, defaultShopifyServiceConfig]

/-- C2 amended: the dispatcher does not special-case non-transient errors.
An authentication failure (Invalid access token) thrown at every attempt is
retried like a transient error, producing maxRetries attempts and
maxRetries provider calls before the tenant is failed with that message;
only the missing-subscription outcome fails immediately after a single
provider call without retry. -/
theorem nonTransient_errors_retried (cfg : ShopifyServiceConfig) (shop : String)
    (amount : ℚ) (hmr : 1 ≤ cfg.maxRetries) :
    ((chargeShopWithRetry cfg (fun _ => .lineItemThrows "Invalid access token")
          shop amount 1).attempts = cfg.maxRetries
      ∧ (chargeShopWithRetry cfg (fun _ => .lineItemThrows "Invalid access token")
          shop amount 1).requests = cfg.maxRetries
      ∧ (chargeShopWithRetry cfg (fun _ => .lineItemThrows "Invalid access token")
          shop amount 1).result.status = .failed
      ∧ (chargeShopWithRetry cfg (fun _ => .lineItemThrows "Invalid access token")
          shop amount 1).result.error = some "Invalid access token")
    ∧ ∀ provider : ℕ → AttemptSpec, provider 1 = .noUsageSubscription →
        (chargeShopWithRetry cfg provider shop amount 1).requests = 1
          ∧ (chargeShopWithRetry cfg provider shop amount 1).attempts = 1
          ∧ (chargeShopWithRetry cfg provider shop amount 1).result.status = .failed := by
  have hall := chargeShopWithRetry_allThrow_aux cfg
      (fun _ => .lineItemThrows "Invalid access token") (fun _ => "Invalid access token")
      (fun _ => rfl) shop amount (cfg.maxRetries - 1) 1 le_rfl hmr (by omega)
  constructor
  · rw [hall]
    refine ⟨?_, ?_, ?_, ?_⟩ <;> simp <;> omega
  · intro provider hp1
    rw [chargeShopWithRetry, hp1]
    exact ⟨rfl, rfl, rfl⟩

/-- Witness for C2 amended at the default configuration. -/
theorem nonTransient_errors_retried_witness :
    1 ≤ defaultShopifyServiceConfig.maxRetries
      ∧ ((chargeShopWithRetry defaultShopifyServiceConfig
            (fun _ => .lineItemThrows "Invalid access token")
            "shop-a.myshopify.com" 5 1).attempts = defaultShopifyServiceConfig.maxRetries
        ∧ (chargeShopWithRetry defaultShopifyServiceConfig
            (fun _ => .lineItemThrows "Invalid access token")
            "shop-a.myshopify.com" 5 1).requests = defaultShopifyServiceConfig.maxRetries
        ∧ (chargeShopWithRetry defaultShopifyServiceConfig
            (fun _ => .lineItemThrows "Invalid access token")
            "shop-a.myshopify.com" 5 1).result.status = .failed
        ∧ (chargeShopWithRetry defaultShopifyServiceConfig
            (fun _ => .lineItemThrows "Invalid access token")
            "shop-a.myshopify.com" 5 1).result.error = some "Invalid access token")
      ∧ (∀ provider : ℕ → AttemptSpec, provider 1 = .noUsageSubscription →
          (chargeShopWithRetry defaultShopifyServiceConfig provider
              "shop-a.myshopify.com" 5 1).requests = 1
            ∧ (chargeShopWithRetry defaultShopifyServiceConfig provider
                "shop-a.myshopify.com" 5 1).attempts = 1
            ∧ (chargeShopWithRetry defaultShopifyServiceConfig provider
                "shop-a.myshopify.com" 5 1).result.status = .failed) :=
  have h := nonTransient_errors_retried defaultShopifyServiceConfig
    "shop-a.myshopify.com" 5 (by decide)
  ⟨by decide, h.1, h.2⟩

/-- C7: for any provider the retry loop makes at most maxRetries attempts,
and for a tenant whose every attempt throws, chargeShopWithRetry terminates
after exactly maxRetries attempts, sleeping retryDelay * 2 ^ (attempt - 1)
between consecutive attempts — the delay list
[retryDelay * 2 ^ 0, ..., retryDelay * 2 ^ (maxRetries - 2)], starting at
the base delay and doubling — and returns a failed outcome carrying the
message of the last attempt. -/
theorem chargeShopWithRetry_termination_backoff (cfg : ShopifyServiceConfig)
    (provider : ℕ → AttemptSpec) (msgs : ℕ → String) (shop : String) (amount : ℚ)
    (hmr : 1 ≤ cfg.maxRetries)
    (hprov : ∀ i, provider i = .lineItemThrows (msgs i)) :
    (∀ q : ℕ → AttemptSpec,
        (chargeShopWithRetry cfg q shop amount 1).attempts ≤ cfg.maxRetries)
      ∧ (chargeShopWithRetry cfg provider shop amount 1).attempts = cfg.maxRetries
      ∧ (chargeShopWithRetry cfg provider shop amount 1).delays
          = (List.range (cfg.maxRetries - 1)).map (fun i => cfg.retryDelay * 2 ^ i)
      ∧ (chargeShopWithRetry cfg provider shop amount 1).result.status = .failed
      ∧ (chargeShopWithRetry cfg provider shop amount 1).result.error
          = some (msgs cfg.maxRetries) := by
  have hall := chargeShopWithRetry_allThrow_aux cfg provider msgs hprov shop amount
      (cfg.maxRetries - 1) 1 le_rfl hmr (by omega)
  refine ⟨?_, ?_, ?_, ?_, ?_⟩
  · intro q
    have hb := chargeShopWithRetry_attempts_aux cfg q shop amount
      (cfg.maxRetries - 1) 1 (by omega)
    omega
  · rw [hall]
    simp
    omega
  · rw [hall]
    simp
  · rw [hall]
  · rw [hall]

/-- Witness for C7: default configuration and an endpoint that is
rate-limited at every attempt. -/
theorem chargeShopWithRetry_termination_backoff_witness :
    (1 ≤ defaultShopifyServiceConfig.maxRetries
        ∧ ∀ i : ℕ, (fun _ : ℕ => AttemptSpec.lineItemThrows "Rate limit exceeded") i
            = AttemptSpec.lineItemThrows ((fun _ : ℕ => "Rate limit exceeded") i))
      ∧ ((∀ q : ℕ → AttemptSpec,
            (chargeShopWithRetry defaultShopifyServiceConfig q
              "shop-a.myshopify.com" 20 1).attempts ≤ defaultShopifyServiceConfig.maxRetries)
        ∧ (chargeShopWithRetry defaultShopifyServiceConfig
            (fun _ => AttemptSpec.lineItemThrows "Rate limit exceeded")
            "shop-a.myshopify.com" 20 1).attempts = defaultShopifyServiceConfig.maxRetries
        ∧ (chargeShopWithRetry defaultShopifyServiceConfig
            (fun _ => AttemptSpec.lineItemThrows "Rate limit exceeded")
            "shop-a.myshopify.com" 20 1).delays
            = (List.range (defaultShopifyServiceConfig.maxRetries - 1)).map
                (fun i => defaultShopifyServiceConfig.retryDelay * 2 ^ i)
        ∧ (chargeShopWithRetry defaultShopifyServiceConfig
            (fun _ => AttemptSpec.lineItemThrows "Rate limit exceeded")
            "shop-a.myshopify.com" 20 1).result.status = .failed
        ∧ (chargeShopWithRetry defaultShopifyServiceConfig
            (fun _ => AttemptSpec.lineItemThrows "Rate limit exceeded")
            "shop-a.myshopify.com" 20 1).result.error
            = some ((fun _ : ℕ => "Rate limit exceeded") defaultShopifyServiceConfig.maxRetries)) :=
  ⟨⟨by decide, fun _ => rfl⟩,
   chargeShopWithRetry_termination_backoff defaultShopifyServiceConfig
     (fun _ => AttemptSpec.lineItemThrows "Rate limit exceeded")
     (fun _ => "Rate limit exceeded") "shop-a.myshopify.com" 20
     (by decide) (fun _ => rfl)⟩

/-- Helper: the ledger contents after a fully successful run are the input
ledger followed by the pending batch and the reconciliation batch. -/
theorem processDailyBilling_success_ledger (cfg : BillingConfig)
    (scfg : ShopifyServiceConfig) (env : RunEnv) (targetDate : String)
    (sessions : List ShopifySession) (pv : List PageViewEvent)
    (hs : env.sessions = .ok sessions) (hne : sessions ≠ [])
    (hpv : env.pageViews = .ok pv) (hpend : env.pendingInsert = .ok ())
    (hrecon : env.reconInsert = .ok ()) (ledger : List BillingRecord) :
    (processDailyBilling cfg scfg env targetDate ledger).2.1
      = ledger ++ pendingRecords cfg sessions pv targetDate
          ++ updatedBillingRecords (generateBillingRecords cfg sessions pv targetDate)
              ((chargeShops scfg env.provider sessions
                ((generateBillingRecords cfg sessions pv targetDate).map
                  (fun record => (record.shop, record.billing_amount)))).map
                (fun run => run.result)) := by
  have hlen : ¬ sessions.length = 0 := by simpa [List.length_eq_zero] using hne
  have hpos : 0 < sessions.length := by omega
  simp [processDailyBilling, hs, hpv, hpend, hrecon, hlen, hpos, insertBillingRecords,
        generateBillingRecords, pendingRecords, updatedBillingRecords,
        List.append_assoc]

/-- C1: when the pending-stage ledger insert throws in a run that reached
that stage (sessions fetched and non-empty, page views fetched), the run
never invokes chargeShops, makes no provider request, leaves the ledger
unchanged, and terminates as a failed run. -/
theorem pendingInsertFailure_aborts_run (cfg : BillingConfig)
    (scfg : ShopifyServiceConfig) (env : RunEnv) (targetDate : String)
    (ledger : List BillingRecord) (sessions : List ShopifySession)
    (pv : List PageViewEvent) (e : String)
    (hs : env.sessions = .ok sessions) (hne : sessions ≠ [])
    (hpv : env.pageViews = .ok pv)
    (hfail : env.pendingInsert = .error e) :
    (processDailyBilling cfg scfg env targetDate ledger).2.2.dispatchCalls = 0
      ∧ (processDailyBilling cfg scfg env targetDate ledger).2.2.providerRequests = 0
      ∧ (processDailyBilling cfg scfg env targetDate ledger).2.1 = ledger
      ∧ (processDailyBilling cfg scfg env targetDate ledger).1.success = false := by
  have hlen : ¬ sessions.length = 0 := by simpa [List.length_eq_zero] using hne
  have hpos : 0 < sessions.length := by omega
  refine ⟨?_, ?_, ?_, ?_⟩ <;>
    simp [processDailyBilling, hs, hpv, hfail, hlen, hpos, failedRunReport,
          generateBillingRecords]

/-- Witness for C1 at the concrete pending-failure environment. -/
theorem pendingInsertFailure_aborts_run_witness :
    (envPendingFail.sessions = .ok [sessionA]
        ∧ [sessionA] ≠ []
        ∧ envPendingFail.pageViews
            = .ok [{ shop := "shop-a.myshopify.com", event_count := 2000000 }]
        ∧ envPendingFail.pendingInsert = .error "BigQuery insert error")
      ∧ ((processDailyBilling defaultBillingConfig defaultShopifyServiceConfig
            envPendingFail "2024-01-01" []).2.2.dispatchCalls = 0
        ∧ (processDailyBilling defaultBillingConfig defaultShopifyServiceConfig
            envPendingFail "2024-01-01" []).2.2.providerRequests = 0
        ∧ (processDailyBilling defaultBillingConfig defaultShopifyServiceConfig
            envPendingFail "2024-01-01" []).2.1 = []
        ∧ (processDailyBilling defaultBillingConfig defaultShopifyServiceConfig
            envPendingFail "2024-01-01" []).1.success = false) :=
  ⟨⟨rfl, by simp, rfl, rfl⟩,
   pendingInsertFailure_aborts_run defaultBillingConfig defaultShopifyServiceConfig
     envPendingFail "2024-01-01" [] [sessionA]
     [{ shop := "shop-a.myshopify.com", event_count := 2000000 }]
     "BigQuery insert error" rfl (by simp) rfl rfl⟩

/-- C5 counterexample: in a run where everything succeeds except the
reconciliation-stage insert, the run report carries success = false — the
failure transitions the run to the failed outcome instead of being captured
in a completed report. -/
theorem reconInsertFailure_counterexample :
    (processDailyBilling defaultBillingConfig defaultShopifyServiceConfig envReconFail
        "2024-01-01" []).1.success = false := by
  rfl

/-- C5 amended: a reconciliation-stage insert failure does not roll back or
retry the charges already made — chargeShops ran exactly once, the provider
request count is exactly that of the one dispatch, and the pending rows
written before dispatch remain in the ledger — but, contrary to the claim,
the run is then reported as failed (success = false with the error in
errorDetails), not as completed with per-tenant outcomes. -/
theorem reconInsertFailure_behaviour (cfg : BillingConfig)
    (scfg : ShopifyServiceConfig) (env : RunEnv) (targetDate : String)
    (ledger : List BillingRecord) (sessions : List ShopifySession)
    (pv : List PageViewEvent) (e : String)
    (hs : env.sessions = .ok sessions) (hne : sessions ≠ [])
    (hpv : env.pageViews = .ok pv)
    (hpend : env.pendingInsert = .ok ())
    (hfail : env.reconInsert = .error e) :
    (processDailyBilling cfg scfg env targetDate ledger).1.success = false
      ∧ (processDailyBilling cfg scfg env targetDate ledger).1.errorDetails = some e
      ∧ (processDailyBilling cfg scfg env targetDate ledger).2.2.dispatchCalls = 1
      ∧ (processDailyBilling cfg scfg env targetDate ledger).2.2.providerRequests
          = ((chargeShops scfg env.provider sessions
                ((generateBillingRecords cfg sessions pv targetDate).map
                  (fun record => (record.shop, record.billing_amount)))).map
              (fun run => run.requests)).sum
      ∧ (processDailyBilling cfg scfg env targetDate ledger).2.1
          = ledger ++ pendingRecords cfg sessions pv targetDate := by
  have hlen : ¬ sessions.length = 0 := by simpa [List.length_eq_zero] using hne
  have hpos : 0 < sessions.length := by omega
  refine ⟨?_, ?_, ?_, ?_, ?_⟩ <;>
    simp [processDailyBilling, hs, hpv, hpend, hfail, hlen, hpos, failedRunReport,
          insertBillingRecords, pendingRecords, generateBillingRecords]

/-- Witness for C5 amended at the concrete reconciliation-failure
environment. -/
theorem reconInsertFailure_behaviour_witness :
    (envReconFail.sessions = .ok [sessionA]
        ∧ [sessionA] ≠ []
        ∧ envReconFail.pageViews
            = .ok [{ shop := "shop-a.myshopify.com", event_count := 2000000 }]
        ∧ envReconFail.pendingInsert = .ok ()
        ∧ envReconFail.reconInsert = .error "BigQuery insert error")
      ∧ (processDailyBilling defaultBillingConfig defaultShopifyServiceConfig
          envReconFail "2024-01-01" []).1.success = false :=
  ⟨⟨rfl, by simp, rfl, rfl, rfl⟩,
   (reconInsertFailure_behaviour defaultBillingConfig defaultShopifyServiceConfig
      envReconFail "2024-01-01" [] [sessionA]
      [{ shop := "shop-a.myshopify.com", event_count := 2000000 }]
      "BigQuery insert error" rfl (by simp) rfl rfl rfl).1⟩

/-- C6 counterexample: with the session read failing, the run terminates
failed (success = false inside the report) yet the trigger responds 200,
not 500 — the transport status does not reflect a failed run. -/
theorem trigger_failed_run_counterexample :
    (processBilling defaultBillingConfig defaultShopifyServiceConfig envReadFail
        "2024-01-01" []).billingDetails.success = false
      ∧ (processBilling defaultBillingConfig defaultShopifyServiceConfig envReadFail
          "2024-01-01" []).status = 200
      ∧ ¬ (processBilling defaultBillingConfig defaultShopifyServiceConfig envReadFail
          "2024-01-01" []).status = 500 :=
  ⟨rfl, rfl, by decide⟩

/-- C6 amended: the trigger responds 200 carrying the structured run report
in the body for every run outcome — Done, Skipped and Failed alike; run
failure is visible only through the success flag and errorDetails inside
the body, never through the transport status (the 500 branch requires an
exception to escape the handler, which the service prevents by catching
internally and returning the report). -/
theorem trigger_always_200 (cfg : BillingConfig) (scfg : ShopifyServiceConfig)
    (env : RunEnv) (targetDate : String) (ledger : List BillingRecord) :
    (processBilling cfg scfg env targetDate ledger).status = 200
      ∧ (processBilling cfg scfg env targetDate ledger).billingDetails
          = (processDailyBilling cfg scfg env targetDate ledger).1 :=
  ⟨rfl, rfl⟩

/-- C8: insertBillingRecords is not idempotent — inserting the same
non-empty batch twice appends it twice — and processDailyBilling has no
duplicate-date suppression: a successful run appends the same batch of
rows whatever the ledger already contains, so re-running the same date
over the ledger left by the first run appends a second full set, with at
least one row per tenant per run. -/
theorem ledger_no_duplicate_suppression (ledger records : List BillingRecord)
    (hrec : records ≠ []) (cfg : BillingConfig) (scfg : ShopifyServiceConfig)
    (env : RunEnv) (targetDate : String) (sessions : List ShopifySession)
    (pv : List PageViewEvent)
    (hs : env.sessions = .ok sessions) (hne : sessions ≠ [])
    (hpv : env.pageViews = .ok pv) (hpend : env.pendingInsert = .ok ())
    (hrecon : env.reconInsert = .ok ()) :
    insertBillingRecords (insertBillingRecords ledger records) records
        = ledger ++ records ++ records
      ∧ (processDailyBilling cfg scfg env targetDate ledger).2.1
          = ledger ++ (processDailyBilling cfg scfg env targetDate []).2.1
      ∧ (processDailyBilling cfg scfg env targetDate
            ((processDailyBilling cfg scfg env targetDate ledger).2.1)).2.1
          = ledger ++ (processDailyBilling cfg scfg env targetDate []).2.1
              ++ (processDailyBilling cfg scfg env targetDate []).2.1
      ∧ ∀ s ∈ sessions,
          0 < ((processDailyBilling cfg scfg env targetDate []).2.1.countP
                (fun r => r.shop == s.shop)) := by
  have hlist : ¬ records.length = 0 := by simpa [List.length_eq_zero] using hrec
  have hshift : ∀ led : List BillingRecord,
      (processDailyBilling cfg scfg env targetDate led).2.1
        = led ++ pendingRecords cfg sessions pv targetDate
            ++ updatedBillingRecords (generateBillingRecords cfg sessions pv targetDate)
                ((chargeShops scfg env.provider sessions
                  ((generateBillingRecords cfg sessions pv targetDate).map
                    (fun record => (record.shop, record.billing_amount)))).map
                  (fun run => run.result)) :=
    fun led => processDailyBilling_success_ledger cfg scfg env targetDate sessions pv
      hs hne hpv hpend hrecon led
  refine ⟨?_, ?_, ?_, ?_⟩
  · simp [insertBillingRecords, hlist, List.append_assoc]
  · rw [hshift ledger, hshift []]
    simp [List.append_assoc]
  · rw [hshift ((processDailyBilling cfg scfg env targetDate ledger).2.1),
        hshift ledger, hshift []]
    simp [List.append_assoc]
  · intro s hmem
    have hmem2 : ∃ r ∈ pendingRecords cfg sessions pv targetDate,
        (r.shop == s.shop) = true :=
      ⟨_, List.mem_map_of_mem _ (List.mem_map_of_mem _ hmem), by simp⟩
    have h1 : 0 < (pendingRecords cfg sessions pv targetDate).countP
        (fun r => r.shop == s.shop) := List.countP_pos_iff.mpr hmem2
    rw [hshift [], List.nil_append, List.countP_append]
    omega

/-- Witness for C8 at the concrete all-success environment with one
explicit ledger row. -/
theorem ledger_no_duplicate_suppression_witness :
    ([recordA] ≠ []
        ∧ envAllOk.sessions = .ok [sessionA]
        ∧ [sessionA] ≠ []
        ∧ envAllOk.pageViews
            = .ok [{ shop := "shop-a.myshopify.com", event_count := 2000000 }]
        ∧ envAllOk.pendingInsert = .ok ()
        ∧ envAllOk.reconInsert = .ok ())
      ∧ insertBillingRecords (insertBillingRecords [] [recordA]) [recordA]
          = [] ++ [recordA] ++ [recordA] :=
  ⟨⟨by simp, rfl, by simp, rfl, rfl, rfl⟩,
   (ledger_no_duplicate_suppression [] [recordA] (by simp) defaultBillingConfig
      defaultShopifyServiceConfig envAllOk "2024-01-01" [sessionA]
      [{ shop := "shop-a.myshopify.com", event_count := 2000000 }]
      rfl (by simp) rfl rfl rfl).1⟩

end WebPixelBilling
